import Mathlib

/-
  Verification of the CMAS client (three near-duplicate React single-page
  applications) against its natural-language specification.

  The repository holds three versions of the same CRUD dashboard:
    v1 = src/frontend/src/App.js        (fetch-based)
    v2 = src/unnamed/part_000           (axios-based, separate usage tab)
    v3 = src/unnamed/part_001           (axios-based, usage form on the
                                         medications tab)

  Each JavaScript function referenced by a claim is shallowly embedded as a
  pure Lean definition: React state updates become explicit record updates,
  localStorage becomes an optional stored-token field, the axios default
  Authorization header becomes an optional header field, and the outcome of
  an awaited HTTP call becomes an explicit outcome value.  Async handlers
  are embedded as pure functions from the HTTP outcome to the resulting
  state and/or the ordered list of observable effects they perform.
-/

/- JavaScript helpers. -/

/-- Semantics of the JavaScript expression `v || fallback` for an optional
string `v` (absent and the empty string are both falsy). -/
def jsOr (v : Option String) (fallback : String) : String :=
  match v with
  | some s => if s = "" then fallback else s
  | none => fallback

/-- Semantics of interpolating an optional string into a JavaScript template
literal: an absent value prints as the text "undefined". -/
def jsTemplate : Option String → String
  | some s => s
  | none => "undefined"

/-- True when an optional message is present and non-empty. -/
def isNonEmptyMsg : Option String → Bool
  | some s => !(s == "")
  | none => false

/- Data model. -/

/-- A resolved user profile as returned by the backend (`/auth/me` or the
login response's `user` field). -/
structure UserProfile where
  username : String
  role : String
deriving DecidableEq

/-- A medication record as held by the client.  Stock fields are the
non-negative integers the claims quantify over. -/
structure Medication where
  id : Nat
  name : String
  current_stock : Nat
  minimum_threshold : Nat
  unit : String
deriving DecidableEq

/- C1: derived stock status. -/

/-- The object returned by v1's `getStockStatus` (App.js lines 250-258):
a display text and a color. -/
structure StatusBadgeV1 where
  text : String
  color : String
deriving DecidableEq

/-- v1 `getStockStatus` (App.js lines 250-258, duplicated at 404-412):
`current_stock === 0` gives the red out-of-stock badge, else
`current_stock <= minimum_threshold` gives the yellow low-stock badge,
else the green in-stock badge. -/
def getStockStatus_v1 (medication : Medication) : StatusBadgeV1 :=
  if medication.current_stock = 0 then
    { text := "Out of Stock", color := "red" }
  else if medication.current_stock ≤ medication.minimum_threshold then
    { text := "Low Stock", color := "yellow" }
  else
    { text := "In Stock", color := "green" }

/-- The object returned by v2's `getStockStatus` (part_000 lines 452-456):
a status tag, a color and a display text. -/
structure StatusBadgeV2 where
  status : String
  color : String
  text : String
deriving DecidableEq

/-- v2 `getStockStatus` (part_000 lines 452-456). -/
def getStockStatus_v2 (med : Medication) : StatusBadgeV2 :=
  if med.current_stock = 0 then
    { status := "critical", color := "red", text := "Out of Stock" }
  else if med.current_stock ≤ med.minimum_threshold then
    { status := "low", color := "yellow", text := "Low Stock" }
  else
    { status := "good", color := "green", text := "In Stock" }

/-- v3 `isLowStock` (part_001 line 533): `current_stock <= minimum_threshold`. -/
def isLowStock_v3 (med : Medication) : Bool :=
  med.current_stock ≤ med.minimum_threshold

/-- v3 `isCritical` (part_001 line 534): `current_stock === 0`. -/
def isCritical_v3 (med : Medication) : Bool :=
  med.current_stock = 0

/-- v3 shows the OUT OF STOCK badge exactly when `isCritical` holds
(part_001 lines 542-546). -/
def showsOutOfStockBadge_v3 (med : Medication) : Bool :=
  isCritical_v3 med

/-- v3 shows the LOW STOCK badge exactly when `isLowStock && !isCritical`
(part_001 lines 547-551). -/
def showsLowStockBadge_v3 (med : Medication) : Bool :=
  isLowStock_v3 med && !(isCritical_v3 med)

/- Session model (C3, C4, C5, C6). -/

/-- v1 session state: React `user` and `token` state plus the persisted
localStorage token (the single durable key "token").  v1 uses plain fetch,
so there is no ambient Authorization header. -/
structure SessionV1 where
  user : Option UserProfile
  token : Option String
  storedToken : Option String
deriving DecidableEq

/-- v2 session state: as v1 plus the axios default Authorization header
(part_000 ambient `axios.defaults.headers.common`). -/
structure SessionV2 where
  user : Option UserProfile
  token : Option String
  storedToken : Option String
  authHeader : Option String
deriving DecidableEq

/-- v3 session state: part_001 keeps no token in React state, only the
persisted localStorage token and the axios default header. -/
structure SessionV3 where
  user : Option UserProfile
  storedToken : Option String
  authHeader : Option String
deriving DecidableEq

/-- The result object of an auth-gateway call: `{success: true}` or
`{success: false, error: <optional message>}`.  `error = none` models a
result whose `error` field is absent or undefined. -/
structure AuthResult where
  success : Bool
  error : Option String
deriving DecidableEq

/-- The outcome of the awaited `POST /auth/login` call: the backend accepts
the credentials and returns `{access_token, user}`, or responds non-ok with
a JSON body whose `detail` field may be absent, or the request itself
fails (network error / thrown exception). -/
inductive LoginOutcome
  | accepted (access_token : String) (user : UserProfile)
  | httpError (detail : Option String)
  | networkError
deriving DecidableEq

/-- v1 `login` (App.js lines 48-69): on ok, set token and user state and
persist the token, returning `{success:true}`; on a non-ok response return
`{success:false, error: body.detail}` with no fallback; on a thrown error
return `{success:false, error:'Network error'}`.  State is untouched on
failure. -/
def login_v1 (s : SessionV1) (o : LoginOutcome) : SessionV1 × AuthResult :=
  match o with
  | .accepted t u =>
      ({ user := some u, token := some t, storedToken := some t },
       { success := true, error := none })
  | .httpError d => (s, { success := false, error := d })
  | .networkError => (s, { success := false, error := some "Network error" })

/-- v2 `login` (part_000 lines 44-64): on success also sets the axios
Authorization header; on any axios error returns
`error.response?.data?.detail || 'Login failed'`. -/
def login_v2 (s : SessionV2) (o : LoginOutcome) : SessionV2 × AuthResult :=
  match o with
  | .accepted t u =>
      ({ user := some u, token := some t, storedToken := some t,
         authHeader := some ("Bearer " ++ t) },
       { success := true, error := none })
  | .httpError d =>
      (s, { success := false, error := some (jsOr d "Login failed") })
  | .networkError =>
      (s, { success := false, error := some (jsOr none "Login failed") })

/-- v3 `login` (part_001 lines 36-48): persists the token, sets the axios
header and the user state on success; on any axios error returns
`error.response?.data?.detail || 'Login failed'`. -/
def login_v3 (s : SessionV3) (o : LoginOutcome) : SessionV3 × AuthResult :=
  match o with
  | .accepted t u =>
      ({ user := some u, storedToken := some t,
         authHeader := some ("Bearer " ++ t) },
       { success := true, error := none })
  | .httpError d =>
      (s, { success := false, error := some (jsOr d "Login failed") })
  | .networkError =>
      (s, { success := false, error := some (jsOr none "Login failed") })

/-- v1 `logout` (App.js lines 71-75): clear user and token state and remove
the persisted token. -/
def logout_v1 (_s : SessionV1) : SessionV1 :=
  { user := none, token := none, storedToken := none }

/-- v2 `logout` (part_000 lines 66-71): additionally deletes the axios
Authorization header. -/
def logout_v2 (_s : SessionV2) : SessionV2 :=
  { user := none, token := none, storedToken := none, authHeader := none }

/-- v3 `logout` (part_001 lines 50-54): removes the persisted token,
deletes the axios header and clears the user state. -/
def logout_v3 (_s : SessionV3) : SessionV3 :=
  { user := none, storedToken := none, authHeader := none }

/-- The outcome of the awaited `POST /init/admin` call. -/
inductive InitOutcome
  | ok
  | httpError (detail : Option String)
  | networkError
deriving DecidableEq

/-- v1 `initializeAdmin` (App.js lines 77-92): `{success:true}` on ok,
`{success:false, error: body.detail}` (no fallback) on a non-ok response,
`{success:false, error:'Network error'}` on a thrown error. -/
def initializeAdmin_v1 : InitOutcome → AuthResult
  | .ok => { success := true, error := none }
  | .httpError d => { success := false, error := d }
  | .networkError => { success := false, error := some "Network error" }

/-- v2 `initializeAdmin` (part_000 lines 73-83): on any axios error returns
`error.response?.data?.detail || 'Failed to initialize admin'`. -/
def initializeAdmin_v2 : InitOutcome → AuthResult
  | .ok => { success := true, error := none }
  | .httpError d =>
      { success := false, error := some (jsOr d "Failed to initialize admin") }
  | .networkError =>
      { success := false, error := some (jsOr none "Failed to initialize admin") }

/- Startup resolution and the view router (C5). -/

/-- The outcome of the startup `GET /auth/me` profile lookup: the backend
confirms the token and returns a profile, or responds with an error, or the
request fails on the network. -/
inductive MeOutcome
  | ok (u : UserProfile)
  | errorResponse
  | networkFailure
deriving DecidableEq

/-- Full v1 application state: the session plus the provider's `loading`
flag, which gates the view router. -/
structure AppStateV1 where
  session : SessionV1
  loading : Bool
deriving DecidableEq

/-- Full v2 application state. -/
structure AppStateV2 where
  session : SessionV2
  loading : Bool
deriving DecidableEq

/-- Full v3 application state. -/
structure AppStateV3 where
  session : SessionV3
  loading : Bool
deriving DecidableEq

/-- v1 startup effect (App.js lines 22-46), run to completion: with no
persisted token it only clears `loading`; with a persisted token it awaits
`GET /auth/me` and either stores the profile, or (non-ok response or thrown
error) removes the persisted token and clears the token state.  The second
component is the list of user-facing alert messages emitted: the code
surfaces nothing on this path. -/
def resolveStartup_v1 (stored : Option String) (o : MeOutcome) :
    AppStateV1 × List String :=
  match stored with
  | none =>
      ({ session := { user := none, token := none, storedToken := none },
         loading := false }, [])
  | some t =>
      match o with
      | .ok u =>
          ({ session := { user := some u, token := some t, storedToken := some t },
             loading := false }, [])
      | .errorResponse =>
          ({ session := { user := none, token := none, storedToken := none },
             loading := false }, [])
      | .networkFailure =>
          ({ session := { user := none, token := none, storedToken := none },
             loading := false }, [])

/-- v2 startup effect (part_000 lines 23-42): with a persisted token it
first installs the axios header, then awaits `fetchUserInfo`; the catch
branch calls `logout()` (clearing all four session fields) and only logs to
the console. -/
def resolveStartup_v2 (stored : Option String) (o : MeOutcome) :
    AppStateV2 × List String :=
  match stored with
  | none =>
      ({ session := { user := none, token := none, storedToken := none,
                      authHeader := none },
         loading := false }, [])
  | some t =>
      match o with
      | .ok u =>
          ({ session := { user := some u, token := some t, storedToken := some t,
                          authHeader := some ("Bearer " ++ t) },
             loading := false }, [])
      | .errorResponse =>
          ({ session := logout_v2 { user := none, token := some t,
                                    storedToken := some t,
                                    authHeader := some ("Bearer " ++ t) },
             loading := false }, [])
      | .networkFailure =>
          ({ session := logout_v2 { user := none, token := some t,
                                    storedToken := some t,
                                    authHeader := some ("Bearer " ++ t) },
             loading := false }, [])

/-- v3 startup effect (part_001 lines 15-34): `fetchUserInfo`'s catch
branch removes the persisted token and deletes the axios header; no message
is surfaced. -/
def resolveStartup_v3 (stored : Option String) (o : MeOutcome) :
    AppStateV3 × List String :=
  match stored with
  | none =>
      ({ session := { user := none, storedToken := none, authHeader := none },
         loading := false }, [])
  | some t =>
      match o with
      | .ok u =>
          ({ session := { user := some u, storedToken := some t,
                          authHeader := some ("Bearer " ++ t) },
             loading := false }, [])
      | .errorResponse =>
          ({ session := { user := none, storedToken := none, authHeader := none },
             loading := false }, [])
      | .networkFailure =>
          ({ session := { user := none, storedToken := none, authHeader := none },
             loading := false }, [])

/-- The three views the root component can render. -/
inductive AppView
  | loadingView
  | loginView
  | dashboardView
deriving DecidableEq

/-- v1 `AppContent` (App.js lines 579-594): a loading indicator while
`loading`, then `user ? <Dashboard/> : <LoginForm/>`. -/
def render_v1 (st : AppStateV1) : AppView :=
  if st.loading then .loadingView
  else
    match st.session.user with
    | some _ => .dashboardView
    | none => .loginView

/-- v2 `AppContent` (part_000 lines 798-813). -/
def render_v2 (st : AppStateV2) : AppView :=
  if st.loading then .loadingView
  else
    match st.session.user with
    | some _ => .dashboardView
    | none => .loginView

/-- v3 `AuthContent` (part_001 lines 784-799). -/
def render_v3 (st : AppStateV3) : AppView :=
  if st.loading then .loadingView
  else
    match st.session.user with
    | some _ => .dashboardView
    | none => .loginView

/- C2: usage-logging handler effect traces. -/

/-- Observable effects performed by a usage-logging handler, in program
order: the awaited write request (`POST /medications/id/use`), a re-fetch
of the medications list, a re-fetch of the usage history, a user-facing
alert, and clearing the form fields. -/
inductive UEvent
  | postUse
  | fetchMeds
  | fetchUsage
  | alertMsg (msg : String)
  | clearForm
deriving DecidableEq

/-- The outcome of the awaited write request. -/
inductive UseOutcome
  | ok
  | httpError (detail : Option String)
  | networkError
deriving DecidableEq

/-- v1 `handleLogUsage` (App.js lines 476-508): on ok it alerts and clears
the form; it performs no re-fetch at all.  On a non-ok response it alerts
with the body's detail; on a thrown error it alerts a fixed message. -/
def handleLogUsage_v1 : UseOutcome → List UEvent
  | .ok => [.postUse, .alertMsg "Usage logged successfully!", .clearForm]
  | .httpError d => [.postUse, .alertMsg ("Error: " ++ jsTemplate d)]
  | .networkError => [.postUse, .alertMsg "Network error occurred"]

/-- v2 `handleLogUsage` (part_000 lines 535-556): after the awaited write
it clears the form, calls `onRefresh()` (the dashboard's `fetchMedications`),
then `fetchUsageHistory()`, then alerts. -/
def handleLogUsage_v2 : UseOutcome → List UEvent
  | .ok => [.postUse, .clearForm, .fetchMeds, .fetchUsage,
      .alertMsg "Usage logged successfully!"]
  | .httpError d => [.postUse, .alertMsg (jsOr d "Failed to log usage")]
  | .networkError => [.postUse, .alertMsg "Failed to log usage"]

/-- v3 `handleUsageSubmit` (part_001 lines 452-469): after the awaited
write it alerts, clears the form, and calls `fetchMedications()`; there is
no usage-history re-fetch in this handler. -/
def handleUsageSubmit_v3 : UseOutcome → List UEvent
  | .ok => [.postUse, .alertMsg "Usage logged successfully!", .clearForm,
      .fetchMeds]
  | .httpError d => [.postUse, .alertMsg (jsOr d "Failed to log usage")]
  | .networkError => [.postUse, .alertMsg "Failed to log usage"]

/-- Number of occurrences of an event in a trace. -/
def countEvent (trace : List UEvent) (e : UEvent) : Nat :=
  trace.count e

/-- No re-fetch occurs before the write request resolves: the prefix of the
trace before the `postUse` event contains no fetch event. -/
def noFetchBeforeWriteResolves (trace : List UEvent) : Prop :=
  countEvent (trace.takeWhile (fun e => e != UEvent.postUse)) UEvent.fetchMeds = 0 ∧
  countEvent (trace.takeWhile (fun e => e != UEvent.postUse)) UEvent.fetchUsage = 0

/-- The re-fetch discipline claimed for a successful usage-logging trace:
exactly one medications re-fetch, exactly one usage-history re-fetch, and
neither before the write resolves. -/
def refetchClaimHolds (trace : List UEvent) : Prop :=
  countEvent trace UEvent.fetchMeds = 1 ∧
  countEvent trace UEvent.fetchUsage = 1 ∧
  noFetchBeforeWriteResolves trace

/-- C2 as stated: every version's successful usage-logging handler obeys
the re-fetch discipline. -/
def refetchClaimAsStated : Prop :=
  refetchClaimHolds (handleLogUsage_v1 .ok) ∧
  refetchClaimHolds (handleLogUsage_v2 .ok) ∧
  refetchClaimHolds (handleUsageSubmit_v3 .ok)

/- C8: the dashboard low-stock list. -/

/-- v2 `lowStockMeds` (part_000 line 248):
`medications.filter(med => med.current_stock <= med.minimum_threshold)`. -/
def lowStockMeds_v2 (medications : List Medication) : List Medication :=
  medications.filter (fun med => decide (med.current_stock ≤ med.minimum_threshold))

/-- v3 `lowStockMeds` (part_001 line 310), identical filter. -/
def lowStockMeds_v3 (medications : List Medication) : List Medication :=
  medications.filter (fun med => decide (med.current_stock ≤ med.minimum_threshold))

/-- v2 `criticalStockMeds` (part_000 line 249):
`medications.filter(med => med.current_stock === 0)`. -/
def criticalStockMeds_v2 (medications : List Medication) : List Medication :=
  medications.filter (fun med => decide (med.current_stock = 0))

/-- C8 as stated: the low-stock list contains exactly the medications whose
stock is at or below the threshold but above zero. -/
def lowStockClaimAsStated : Prop :=
  ∀ (meds : List Medication) (m : Medication),
    (m ∈ lowStockMeds_v2 meds ↔
      (m ∈ meds ∧ 0 < m.current_stock ∧ m.current_stock ≤ m.minimum_threshold)) ∧
    (m ∈ lowStockMeds_v3 meds ↔
      (m ∈ meds ∧ 0 < m.current_stock ∧ m.current_stock ≤ m.minimum_threshold))

/- C10: the usage form's medication selector. -/

/-- v1 `UsageTab` medication selector (App.js lines 526-531): maps over the
whole `medications` array, no filter. -/
def usageSelectorOptions_v1 (medications : List Medication) : List Medication :=
  medications

/-- v2 `UsageTab` medication selector (part_000 lines 574-578): maps over
the whole `medications` array, no filter. -/
def usageSelectorOptions_v2 (medications : List Medication) : List Medication :=
  medications

/-- v3 `MedicationsContent` selector (part_001 lines 486-490):
`medications.filter(med => med.current_stock > 0)`. -/
def usageSelectorOptions_v3 (medications : List Medication) : List Medication :=
  medications.filter (fun med => decide (0 < med.current_stock))

/- C9: the useAuth hook. -/

/-- The data carried by v1's AuthProvider context value (App.js line 95);
the `login`, `logout` and `initializeAdmin` functions it also carries are
modelled separately above. -/
structure AuthContextValueV1 where
  user : Option UserProfile
  token : Option String
  loading : Bool
deriving DecidableEq

/-- The data carried by v2's context value (part_000 lines 86-94), which
additionally exposes `API_BASE_URL`. -/
structure AuthContextValueV2 where
  user : Option UserProfile
  token : Option String
  loading : Bool
  apiBaseUrl : String
deriving DecidableEq

/-- The data carried by v3's context value (part_001 line 57). -/
structure AuthContextValueV3 where
  user : Option UserProfile
  loading : Bool
deriving DecidableEq

/-- `useAuth` as written identically in all three versions (App.js lines
9-15, part_000 lines 8-14, part_001 lines 63-69): read the context; if it
is absent (the component is not under an AuthProvider) throw, otherwise
return it.  The provider always supplies an object literal, so inside a
provider the context is present. -/
def useAuth {α : Type} (context : Option α) : Except String α :=
  match context with
  | none => Except.error "useAuth must be used within an AuthProvider"
  | some c => Except.ok c

/- C7: base API URL configuration. -/

/-- v1 `API_BASE_URL` (App.js line 4):
`process.env.REACT_APP_BACKEND_URL || 'http://localhost:8000/api'`. -/
def API_BASE_URL_v1 (env : Option String) : String :=
  jsOr env "http://localhost:8000/api"

/-- v2 `API_BASE_URL` (part_000 line 21), identical expression. -/
def API_BASE_URL_v2 (env : Option String) : String :=
  jsOr env "http://localhost:8000/api"

/-- v3 `BACKEND_URL` (part_001 line 5):
`process.env.REACT_APP_BACKEND_URL` with no fallback; an absent variable
interpolates as "undefined". -/
def BACKEND_URL_v3 (env : Option String) : String :=
  jsTemplate env

/-- v3 `API` (part_001 line 6): the template literal `BACKEND_URL + "/api"`. -/
def API_v3 (env : Option String) : String :=
  BACKEND_URL_v3 env ++ "/api"

/-- Modelled from the spec: "defaulting to a local address" — a base URL is
a well-formed local address when it is an http URL on localhost. -/
def wellFormedLocalAddress (s : String) : Bool :=
  s.toList.take ("http://localhost".toList).length == "http://localhost".toList

/-- C7 as stated: with the environment variable absent, every version's
base API URL is a well-formed local address. -/
def defaultUrlClaimAsStated : Prop :=
  wellFormedLocalAddress (API_BASE_URL_v1 none) = true ∧
  wellFormedLocalAddress (API_BASE_URL_v2 none) = true ∧
  wellFormedLocalAddress (API_v3 none) = true

/- C4 and C6 claim statements. -/

/-- C4 as stated: in every version, an accepted login leaves a non-empty
persisted token and a populated profile, and a rejected login (error
response or network failure) leaves the session state untouched and
returns a non-empty error message. -/
def loginClaimAsStated : Prop :=
  (∀ (s : SessionV1) (t : String) (u : UserProfile),
      isNonEmptyMsg (login_v1 s (.accepted t u)).1.storedToken = true ∧
      (login_v1 s (.accepted t u)).1.user ≠ none) ∧
  (∀ (s : SessionV1) (d : Option String),
      (login_v1 s (.httpError d)).1 = s ∧
      isNonEmptyMsg (login_v1 s (.httpError d)).2.error = true) ∧
  (∀ (s : SessionV1),
      (login_v1 s .networkError).1 = s ∧
      isNonEmptyMsg (login_v1 s .networkError).2.error = true) ∧
  (∀ (s : SessionV2) (t : String) (u : UserProfile),
      isNonEmptyMsg (login_v2 s (.accepted t u)).1.storedToken = true ∧
      (login_v2 s (.accepted t u)).1.user ≠ none) ∧
  (∀ (s : SessionV2) (d : Option String),
      (login_v2 s (.httpError d)).1 = s ∧
      isNonEmptyMsg (login_v2 s (.httpError d)).2.error = true) ∧
  (∀ (s : SessionV2),
      (login_v2 s .networkError).1 = s ∧
      isNonEmptyMsg (login_v2 s .networkError).2.error = true) ∧
  (∀ (s : SessionV3) (t : String) (u : UserProfile),
      isNonEmptyMsg (login_v3 s (.accepted t u)).1.storedToken = true ∧
      (login_v3 s (.accepted t u)).1.user ≠ none) ∧
  (∀ (s : SessionV3) (d : Option String),
      (login_v3 s (.httpError d)).1 = s ∧
      isNonEmptyMsg (login_v3 s (.httpError d)).2.error = true) ∧
  (∀ (s : SessionV3),
      (login_v3 s .networkError).1 = s ∧
      isNonEmptyMsg (login_v3 s .networkError).2.error = true)

/-- Conformance of a login-shaped gateway call to the spec's translation
contract: success maps to `{success:true}`, a present detail field is
passed through, and an absent detail or a network failure maps to a
non-empty message. -/
def gatewayConformsLogin (f : LoginOutcome → AuthResult) : Prop :=
  (∀ (t : String) (u : UserProfile),
      f (.accepted t u) = { success := true, error := none }) ∧
  (∀ d : String, f (.httpError (some d)) = { success := false, error := some d }) ∧
  ((f (.httpError none)).success = false ∧
    isNonEmptyMsg (f (.httpError none)).error = true) ∧
  ((f .networkError).success = false ∧
    isNonEmptyMsg (f .networkError).error = true)

/-- The same contract for the `initializeAdmin`-shaped call. -/
def gatewayConformsInit (f : InitOutcome → AuthResult) : Prop :=
  f .ok = { success := true, error := none } ∧
  (∀ d : String, f (.httpError (some d)) = { success := false, error := some d }) ∧
  ((f (.httpError none)).success = false ∧
    isNonEmptyMsg (f (.httpError none)).error = true) ∧
  ((f .networkError).success = false ∧
    isNonEmptyMsg (f .networkError).error = true)

/-- C6 as stated: every auth-gateway call in every version conforms to the
translation contract. -/
def gatewayClaimAsStated : Prop :=
  (∀ s : SessionV1, gatewayConformsLogin (fun o => (login_v1 s o).2)) ∧
  (∀ s : SessionV2, gatewayConformsLogin (fun o => (login_v2 s o).2)) ∧
  (∀ s : SessionV3, gatewayConformsLogin (fun o => (login_v3 s o).2)) ∧
  gatewayConformsInit initializeAdmin_v1 ∧
  gatewayConformsInit initializeAdmin_v2

/- Sample values for concrete instantiations. -/

/-- A zero-stock medication below its threshold. -/
def medParacetamol : Medication :=
  { id := 1, name := "Paracetamol", current_stock := 0,
    minimum_threshold := 5, unit := "tablets" }

/-- The spec's low-stock scenario: stock 3, threshold 5. -/
def medIbuprofen : Medication :=
  { id := 1, name := "Ibuprofen", current_stock := 3,
    minimum_threshold := 5, unit := "tablets" }

/-- An out-of-stock medication for the selector claims. -/
def medAmoxicillin : Medication :=
  { id := 2, name := "Amoxicillin", current_stock := 0,
    minimum_threshold := 3, unit := "capsules" }

/-- A populated v1 session. -/
def sampleSessionV1 : SessionV1 :=
  { user := some { username := "nurse", role := "staff" },
    token := some "t0", storedToken := some "t0" }

/-- A sample v1 context value. -/
def sampleContextV1 : AuthContextValueV1 :=
  { user := none, token := none, loading := true }

/- Theorems. -/

/-- Helper: the JavaScript `detail || fallback` expression always yields a
non-empty message when the fallback is non-empty. -/
theorem isNonEmptyMsg_jsOr (d : Option String) (fb : String) (hfb : fb ≠ "") :
    isNonEmptyMsg (some (jsOr d fb)) = true := by
  rcases d with _ | s
  · simp [jsOr, isNonEmptyMsg, hfb]
  · by_cases hs : s = "" <;> simp [jsOr, isNonEmptyMsg, hs, hfb]

/-- C1: in every version, the derived stock status is the critical
(out-of-stock) outcome iff `current_stock = 0`, the low-stock outcome iff
`0 < current_stock ≤ minimum_threshold`, and the in-stock outcome iff
`minimum_threshold < current_stock`; the three arithmetic conditions are
mutually exclusive, and the final disjunctions show the status always
lands in exactly one of the three outcomes. -/
theorem getStockStatus_trichotomy (m : Medication) :
    ((getStockStatus_v1 m).color = "red" ↔ m.current_stock = 0) ∧
    ((getStockStatus_v1 m).color = "yellow" ↔
      (0 < m.current_stock ∧ m.current_stock ≤ m.minimum_threshold)) ∧
    ((getStockStatus_v1 m).color = "green" ↔
      m.minimum_threshold < m.current_stock) ∧
    ((getStockStatus_v2 m).status = "critical" ↔ m.current_stock = 0) ∧
    ((getStockStatus_v2 m).status = "low" ↔
      (0 < m.current_stock ∧ m.current_stock ≤ m.minimum_threshold)) ∧
    ((getStockStatus_v2 m).status = "good" ↔
      m.minimum_threshold < m.current_stock) ∧
    (showsOutOfStockBadge_v3 m = true ↔ m.current_stock = 0) ∧
    (showsLowStockBadge_v3 m = true ↔
      (0 < m.current_stock ∧ m.current_stock ≤ m.minimum_threshold)) ∧
    ((getStockStatus_v1 m).color = "red" ∨
      (getStockStatus_v1 m).color = "yellow" ∨
      (getStockStatus_v1 m).color = "green") ∧
    ((getStockStatus_v2 m).status = "critical" ∨
      (getStockStatus_v2 m).status = "low" ∨
      (getStockStatus_v2 m).status = "good") := by
  by_cases h0 : m.current_stock = 0
  · simp [getStockStatus_v1, getStockStatus_v2, showsOutOfStockBadge_v3,
      showsLowStockBadge_v3, isCritical_v3, isLowStock_v3, h0]
  · by_cases hle : m.current_stock ≤ m.minimum_threshold
    · simp [getStockStatus_v1, getStockStatus_v2, showsOutOfStockBadge_v3,
        showsLowStockBadge_v3, isCritical_v3, isLowStock_v3, h0, hle]
      omega
    · simp [getStockStatus_v1, getStockStatus_v2, showsOutOfStockBadge_v3,
        showsLowStockBadge_v3, isCritical_v3, isLowStock_v3, h0, hle]
      omega

/-- C3: `logout`, from any prior session state, clears the user profile,
the token state, the persisted token, and (where present) the ambient
Authorization header, in every version. -/
theorem logout_clears_session (s1 : SessionV1) (s2 : SessionV2)
    (s3 : SessionV3) :
    logout_v1 s1 = { user := none, token := none, storedToken := none } ∧
    logout_v2 s2 =
      { user := none, token := none, storedToken := none, authHeader := none } ∧
    logout_v3 s3 = { user := none, storedToken := none, authHeader := none } :=
  ⟨rfl, rfl, rfl⟩

/-- C5: startup with a persisted token that the backend rejects (error
response or network failure) resolves, in every version, to the fully
cleared unauthenticated session with loading over, emits no user-facing
alert (the empty second component), and the view router then renders the
login view, not the dashboard. -/
theorem startup_rejection_demotes (t : String) :
    (resolveStartup_v1 (some t) .errorResponse =
      ({ session := { user := none, token := none, storedToken := none },
         loading := false }, [])) ∧
    (resolveStartup_v1 (some t) .networkFailure =
      ({ session := { user := none, token := none, storedToken := none },
         loading := false }, [])) ∧
    render_v1 (resolveStartup_v1 (some t) .errorResponse).1 = .loginView ∧
    render_v1 (resolveStartup_v1 (some t) .networkFailure).1 = .loginView ∧
    (resolveStartup_v2 (some t) .errorResponse =
      ({ session := { user := none, token := none, storedToken := none,
                      authHeader := none }, loading := false }, [])) ∧
    (resolveStartup_v2 (some t) .networkFailure =
      ({ session := { user := none, token := none, storedToken := none,
                      authHeader := none }, loading := false }, [])) ∧
    render_v2 (resolveStartup_v2 (some t) .errorResponse).1 = .loginView ∧
    render_v2 (resolveStartup_v2 (some t) .networkFailure).1 = .loginView ∧
    (resolveStartup_v3 (some t) .errorResponse =
      ({ session := { user := none, storedToken := none, authHeader := none },
         loading := false }, [])) ∧
    (resolveStartup_v3 (some t) .networkFailure =
      ({ session := { user := none, storedToken := none, authHeader := none },
         loading := false }, [])) ∧
    render_v3 (resolveStartup_v3 (some t) .errorResponse).1 = .loginView ∧
    render_v3 (resolveStartup_v3 (some t) .networkFailure).1 = .loginView :=
  ⟨rfl, rfl, rfl, rfl, rfl, rfl, rfl, rfl, rfl, rfl, rfl, rfl⟩

/-- C9: `useAuth` returns the thrown error exactly when the auth context is
absent (no enclosing AuthProvider) and returns the context value untouched
when it is present, for each version's context value type. -/
theorem useAuth_guard (c1 : AuthContextValueV1) (c2 : AuthContextValueV2)
    (c3 : AuthContextValueV3) :
    useAuth (some c1) = Except.ok c1 ∧
    useAuth (some c2) = Except.ok c2 ∧
    useAuth (some c3) = Except.ok c3 ∧
    useAuth (none : Option AuthContextValueV1) =
      Except.error "useAuth must be used within an AuthProvider" ∧
    useAuth (none : Option AuthContextValueV2) =
      Except.error "useAuth must be used within an AuthProvider" ∧
    useAuth (none : Option AuthContextValueV3) =
      Except.error "useAuth must be used within an AuthProvider" :=
  ⟨rfl, rfl, rfl, rfl, rfl, rfl⟩

/-- C10: v3's usage-form selector offers exactly the medications with
positive stock, so an out-of-stock medication is never offered; v1 and v2
offer the whole medications list unfiltered. -/
theorem usageSelector_options (meds : List Medication) (m : Medication) :
    (m ∈ usageSelectorOptions_v3 meds ↔ (m ∈ meds ∧ 0 < m.current_stock)) ∧
    usageSelectorOptions_v1 meds = meds ∧
    usageSelectorOptions_v2 meds = meds := by
  refine ⟨?_, rfl, rfl⟩
  simp [usageSelectorOptions_v3, List.mem_filter]

/-- C2 counterexample: the claim as stated fails, because v1's successful
handler performs no re-fetch at all and v3's performs no usage-history
re-fetch. -/
theorem refetch_counterexample : ¬ refetchClaimAsStated := by
  unfold refetchClaimAsStated refetchClaimHolds noFetchBeforeWriteResolves
    countEvent
  decide

/-- C2 amended: only v2's successful usage-logging handler triggers exactly
one medications re-fetch and one usage-history re-fetch, both after the
write resolves; v1's handler triggers no re-fetch, and v3's triggers
exactly one medications re-fetch (after the write) and no usage-history
re-fetch. -/
theorem refetch_amended :
    refetchClaimHolds (handleLogUsage_v2 .ok) ∧
    countEvent (handleLogUsage_v1 .ok) UEvent.fetchMeds = 0 ∧
    countEvent (handleLogUsage_v1 .ok) UEvent.fetchUsage = 0 ∧
    countEvent (handleUsageSubmit_v3 .ok) UEvent.fetchMeds = 1 ∧
    countEvent (handleUsageSubmit_v3 .ok) UEvent.fetchUsage = 0 ∧
    noFetchBeforeWriteResolves (handleUsageSubmit_v3 .ok) := by
  unfold refetchClaimHolds noFetchBeforeWriteResolves countEvent
  decide

/-- C4 counterexample: v1's login, on a credential rejection whose response
body lacks a `detail` field, returns a result with no error message at
all, so the claim's "non-empty error message" fails. -/
theorem loginClaim_counterexample : ¬ loginClaimAsStated := by
  intro h
  have h2 := (h.2.1 { user := none, token := none, storedToken := none } none).2
  exact absurd h2 (by decide)

/-- C4 amended: in every version, an accepted login stores exactly the
backend-issued token (in state and persisted) and the backend-returned
profile — hence a non-empty persisted token whenever the issued token is
non-empty — and a rejected login (error response or network failure)
leaves the session state exactly as before.  The failure result carries a
non-empty error message in v2 and v3 always and in v1 on network failure,
while v1 passes the response's optional `detail` field through unchanged
(absent detail, absent message). -/
theorem login_contract_amended :
    (∀ (s : SessionV1) (t : String) (u : UserProfile), t ≠ "" →
        isNonEmptyMsg (login_v1 s (.accepted t u)).1.storedToken = true) ∧
    (∀ (s : SessionV2) (t : String) (u : UserProfile), t ≠ "" →
        isNonEmptyMsg (login_v2 s (.accepted t u)).1.storedToken = true) ∧
    (∀ (s : SessionV3) (t : String) (u : UserProfile), t ≠ "" →
        isNonEmptyMsg (login_v3 s (.accepted t u)).1.storedToken = true) ∧
    (∀ (s : SessionV1) (t : String) (u : UserProfile),
        (login_v1 s (.accepted t u)).1 =
          { user := some u, token := some t, storedToken := some t } ∧
        (login_v1 s (.accepted t u)).2 = { success := true, error := none }) ∧
    (∀ (s : SessionV2) (t : String) (u : UserProfile),
        (login_v2 s (.accepted t u)).1 =
          { user := some u, token := some t, storedToken := some t,
            authHeader := some ("Bearer " ++ t) } ∧
        (login_v2 s (.accepted t u)).2 = { success := true, error := none }) ∧
    (∀ (s : SessionV3) (t : String) (u : UserProfile),
        (login_v3 s (.accepted t u)).1 =
          { user := some u, storedToken := some t,
            authHeader := some ("Bearer " ++ t) } ∧
        (login_v3 s (.accepted t u)).2 = { success := true, error := none }) ∧
    (∀ (s : SessionV1) (d : Option String),
        (login_v1 s (.httpError d)).1 = s ∧
        (login_v1 s (.httpError d)).2.error = d) ∧
    (∀ s : SessionV1,
        (login_v1 s .networkError).1 = s ∧
        isNonEmptyMsg (login_v1 s .networkError).2.error = true) ∧
    (∀ (s : SessionV2) (d : Option String),
        (login_v2 s (.httpError d)).1 = s ∧
        isNonEmptyMsg (login_v2 s (.httpError d)).2.error = true) ∧
    (∀ s : SessionV2,
        (login_v2 s .networkError).1 = s ∧
        isNonEmptyMsg (login_v2 s .networkError).2.error = true) ∧
    (∀ (s : SessionV3) (d : Option String),
        (login_v3 s (.httpError d)).1 = s ∧
        isNonEmptyMsg (login_v3 s (.httpError d)).2.error = true) ∧
    (∀ s : SessionV3,
        (login_v3 s .networkError).1 = s ∧
        isNonEmptyMsg (login_v3 s .networkError).2.error = true) := by
  refine ⟨?_, ?_, ?_,
    fun s t u => ⟨rfl, rfl⟩, fun s t u => ⟨rfl, rfl⟩, fun s t u => ⟨rfl, rfl⟩,
    fun s d => ⟨rfl, rfl⟩,
    fun s => ⟨rfl, by rfl⟩,
    fun s d => ⟨rfl, isNonEmptyMsg_jsOr d _ (by decide)⟩,
    fun s => ⟨rfl, isNonEmptyMsg_jsOr none _ (by decide)⟩,
    fun s d => ⟨rfl, isNonEmptyMsg_jsOr d _ (by decide)⟩,
    fun s => ⟨rfl, isNonEmptyMsg_jsOr none _ (by decide)⟩⟩
  · intro s t u ht
    simp [login_v1, isNonEmptyMsg, ht]
  · intro s t u ht
    simp [login_v2, isNonEmptyMsg, ht]
  · intro s t u ht
    simp [login_v3, isNonEmptyMsg, ht]

/-- C4 witness: the amended login contract applied to the empty session
and the concrete non-empty token "tok123" in each version. -/
theorem login_contract_amended_witness :
    isNonEmptyMsg (login_v1 { user := none, token := none, storedToken := none }
      (.accepted "tok123" { username := "admin", role := "admin" })).1.storedToken
        = true ∧
    isNonEmptyMsg (login_v2
      { user := none, token := none, storedToken := none, authHeader := none }
      (.accepted "tok123" { username := "admin", role := "admin" })).1.storedToken
        = true ∧
    isNonEmptyMsg (login_v3 { user := none, storedToken := none, authHeader := none }
      (.accepted "tok123" { username := "admin", role := "admin" })).1.storedToken
        = true :=
  ⟨login_contract_amended.1 _ "tok123" _ (by decide),
   login_contract_amended.2.1 _ "tok123" _ (by decide),
   login_contract_amended.2.2.1 _ "tok123" _ (by decide)⟩

/-- C6 counterexample: v1's login violates the translation contract at the
HTTP-error outcome with an absent `detail` field, where the result's error
message is absent rather than a generic non-empty fallback. -/
theorem gatewayClaim_counterexample : ¬ gatewayClaimAsStated := by
  intro h
  have h2 := ((h.1 { user := none, token := none, storedToken := none }).2.2.1).2
  exact absurd h2 (by decide)

/-- C6 amended: success always maps to `{success:true}`; a present
non-empty `detail` is passed through by v2's and v3's login and v2's
`initializeAdmin`, which also produce a non-empty generic fallback when the
detail is absent (or empty) and on network failure; v1's login and
`initializeAdmin` pass the optional `detail` through unchanged — absent
detail gives an absent message — and produce the fixed message
"Network error" only on network failure. -/
theorem gateway_translation_amended :
    (∀ (s : SessionV2) (d : String), d ≠ "" →
        (login_v2 s (.httpError (some d))).2 =
          { success := false, error := some d }) ∧
    (∀ (s : SessionV3) (d : String), d ≠ "" →
        (login_v3 s (.httpError (some d))).2 =
          { success := false, error := some d }) ∧
    (∀ d : String, d ≠ "" →
        initializeAdmin_v2 (.httpError (some d)) =
          { success := false, error := some d }) ∧
    (∀ (s : SessionV1) (t : String) (u : UserProfile),
        (login_v1 s (.accepted t u)).2 = { success := true, error := none }) ∧
    (∀ (s : SessionV2) (t : String) (u : UserProfile),
        (login_v2 s (.accepted t u)).2 = { success := true, error := none }) ∧
    (∀ (s : SessionV3) (t : String) (u : UserProfile),
        (login_v3 s (.accepted t u)).2 = { success := true, error := none }) ∧
    initializeAdmin_v1 .ok = { success := true, error := none } ∧
    initializeAdmin_v2 .ok = { success := true, error := none } ∧
    (∀ (s : SessionV1) (d : Option String),
        (login_v1 s (.httpError d)).2 = { success := false, error := d }) ∧
    (∀ d : Option String,
        initializeAdmin_v1 (.httpError d) = { success := false, error := d }) ∧
    (∀ s : SessionV1,
        (login_v1 s .networkError).2 =
          { success := false, error := some "Network error" }) ∧
    initializeAdmin_v1 .networkError =
      { success := false, error := some "Network error" } ∧
    (∀ (s : SessionV2) (d : Option String),
        (login_v2 s (.httpError d)).2.success = false ∧
        isNonEmptyMsg (login_v2 s (.httpError d)).2.error = true) ∧
    (∀ s : SessionV2, isNonEmptyMsg (login_v2 s .networkError).2.error = true) ∧
    (∀ (s : SessionV3) (d : Option String),
        (login_v3 s (.httpError d)).2.success = false ∧
        isNonEmptyMsg (login_v3 s (.httpError d)).2.error = true) ∧
    (∀ s : SessionV3, isNonEmptyMsg (login_v3 s .networkError).2.error = true) ∧
    (∀ d : Option String,
        isNonEmptyMsg (initializeAdmin_v2 (.httpError d)).error = true) ∧
    isNonEmptyMsg (initializeAdmin_v2 .networkError).error = true := by
  refine ⟨?_, ?_, ?_,
    fun s t u => rfl, fun s t u => rfl, fun s t u => rfl, rfl, rfl,
    fun s d => rfl, fun d => rfl, fun s => rfl, rfl,
    fun s d => ⟨rfl, isNonEmptyMsg_jsOr d _ (by decide)⟩,
    fun s => isNonEmptyMsg_jsOr none _ (by decide),
    fun s d => ⟨rfl, isNonEmptyMsg_jsOr d _ (by decide)⟩,
    fun s => isNonEmptyMsg_jsOr none _ (by decide),
    fun d => isNonEmptyMsg_jsOr d _ (by decide),
    isNonEmptyMsg_jsOr none _ (by decide)⟩
  · intro s d hd
    simp [login_v2, jsOr, hd]
  · intro s d hd
    simp [login_v3, jsOr, hd]
  · intro d hd
    simp [initializeAdmin_v2, jsOr, hd]

/-- C6 witness: the amended translation contract applied to concrete
non-empty detail messages. -/
theorem gateway_translation_amended_witness :
    (login_v2 { user := none, token := none, storedToken := none, authHeader := none }
      (.httpError (some "Invalid credentials"))).2 =
      { success := false, error := some "Invalid credentials" } ∧
    (login_v3 { user := none, storedToken := none, authHeader := none }
      (.httpError (some "Invalid credentials"))).2 =
      { success := false, error := some "Invalid credentials" } ∧
    initializeAdmin_v2 (.httpError (some "Admin user already exists")) =
      { success := false, error := some "Admin user already exists" } :=
  ⟨gateway_translation_amended.1 _ "Invalid credentials" (by decide),
   gateway_translation_amended.2.1 _ "Invalid credentials" (by decide),
   gateway_translation_amended.2.2.1 "Admin user already exists" (by decide)⟩

/-- C7 counterexample: v3's base API URL with the environment variable
absent is "undefined/api", which is not a well-formed local address, so the
claim fails for the third version. -/
theorem defaultUrl_counterexample : ¬ defaultUrlClaimAsStated := by
  unfold defaultUrlClaimAsStated
  decide

/-- C7 amended: with the environment variable absent, v1 and v2 default to
the well-formed local address "http://localhost:8000/api", while v3 has no
default and produces the malformed base URL "undefined/api". -/
theorem defaultUrl_amended :
    API_BASE_URL_v1 none = "http://localhost:8000/api" ∧
    API_BASE_URL_v2 none = "http://localhost:8000/api" ∧
    wellFormedLocalAddress (API_BASE_URL_v1 none) = true ∧
    wellFormedLocalAddress (API_BASE_URL_v2 none) = true ∧
    API_v3 none = "undefined/api" ∧
    wellFormedLocalAddress (API_v3 none) = false := by
  decide

/-- C8 counterexample: a medication with zero stock and threshold 5 is in
`lowStockMeds` (because `0 <= 5`), contradicting the claim that only
medications with stock above zero appear there. -/
theorem lowStock_counterexample : ¬ lowStockClaimAsStated := by
  intro h
  have hm := ((h
    [{ id := 1, name := "Paracetamol", current_stock := 0,
       minimum_threshold := 5, unit := "tablets" }]
    { id := 1, name := "Paracetamol", current_stock := 0,
      minimum_threshold := 5, unit := "tablets" }).1).mp (by decide)
  exact absurd hm.2.1 (by decide)

/-- C8 amended: in v2 and v3, `lowStockMeds` contains exactly the
medications whose current stock is at or below the minimum threshold —
including out-of-stock medications, which therefore appear in both the
low-stock and the critical list. -/
theorem lowStock_amended (meds : List Medication) (m : Medication) :
    (m ∈ lowStockMeds_v2 meds ↔
      (m ∈ meds ∧ m.current_stock ≤ m.minimum_threshold)) ∧
    (m ∈ lowStockMeds_v3 meds ↔
      (m ∈ meds ∧ m.current_stock ≤ m.minimum_threshold)) ∧
    (m ∈ criticalStockMeds_v2 meds ↔ (m ∈ meds ∧ m.current_stock = 0)) := by
  simp [lowStockMeds_v2, lowStockMeds_v3, criticalStockMeds_v2,
    List.mem_filter]

/-- C1 witness: the spec's own scenario — stock 3 with threshold 5 is the
low-stock outcome. -/
theorem getStockStatus_trichotomy_witness :
    (getStockStatus_v1 medIbuprofen).color = "yellow" :=
  ((getStockStatus_trichotomy medIbuprofen).2.1).mpr (by decide)

/-- C3 witness: logging out of a populated v1 session clears it. -/
theorem logout_clears_session_witness :
    logout_v1 sampleSessionV1 =
      { user := none, token := none, storedToken := none } :=
  (logout_clears_session sampleSessionV1
    { user := none, token := none, storedToken := none, authHeader := none }
    { user := none, storedToken := none, authHeader := none }).1

/-- C5 witness: a concrete expired persisted token rejected at startup
renders the v1 login view. -/
theorem startup_rejection_demotes_witness :
    render_v1 (resolveStartup_v1 (some "expired-token") .errorResponse).1 =
      AppView.loginView :=
  (startup_rejection_demotes "expired-token").2.2.1

/-- C9 witness: a concrete v1 context value is returned untouched. -/
theorem useAuth_guard_witness :
    useAuth (some sampleContextV1) = Except.ok sampleContextV1 :=
  (useAuth_guard sampleContextV1
    { user := none, token := none, loading := true, apiBaseUrl := "" }
    { user := none, loading := true }).1

/-- C10 witness: v1's selector offers the whole list unfiltered. -/
theorem usageSelector_options_witness :
    usageSelectorOptions_v1 [medAmoxicillin] = [medAmoxicillin] :=
  (usageSelector_options [medAmoxicillin] medAmoxicillin).2.1

/-- C8 witness: the amended characterization puts the zero-stock
medication in the v2 low-stock list. -/
theorem lowStock_amended_witness :
    medParacetamol ∈ lowStockMeds_v2 [medParacetamol] :=
  ((lowStock_amended [medParacetamol] medParacetamol).1).mpr (by decide)
